import Mathlib

/-!
Shallow embedding of the CamStudio camera-prompt application.

Sources embedded here:
* `src/hooks/useCameraControls.ts` — undo/redo camera store and
  `buildCameraPrompt` compiler.
* `src/unnamed/part_005` — `DEFAULT_CAMERA_STATE` and slider limits
  (the repository's `constants.ts`).
* `src/components/Camera3DControl.tsx` — drag handler that clamps
  rotate/tilt before calling `onChange`.
* `src/components/PromptConsole.tsx` — branches on the sentinel string.
* `src/services/geminiService.ts` — generation orchestrator: request
  config, response-part extraction, retry/back-off loop.
* `src/App.tsx` (line 100) and `src/unnamed/part_011` (line 85) —
  history ledger recording.

JavaScript numbers are modelled as rationals (`ℚ`); all comparisons in
the embedded code are exact at the inputs the theorems use.
-/

/-- `CameraControlState` from `src/types.ts`: rotate (degrees), forward
(dolly distance), tilt (pitch), lens toggle, levitation toggle. -/
structure CameraControlState where
  rotate : ℚ
  forward : ℚ
  tilt : ℚ
  wideAngle : Bool
  floating : Bool
deriving DecidableEq

/-- `DEFAULT_CAMERA_STATE` from the constants file (`src/unnamed/part_005`). -/
def DEFAULT_CAMERA_STATE : CameraControlState :=
  { rotate := 0, forward := 0, tilt := 0, wideAngle := false, floating := false }

/-- A min/max pair, as in the `*_LIMITS` constants. -/
structure Limits where
  min : ℚ
  max : ℚ

/-- `ROTATE_LIMITS` from the constants file. -/
def ROTATE_LIMITS : Limits := { min := -90, max := 90 }

/-- `FORWARD_LIMITS` from the constants file. -/
def FORWARD_LIMITS : Limits := { min := 0, max := 10 }

/-- `TILT_LIMITS` from the constants file. -/
def TILT_LIMITS : Limits := { min := -1, max := 1 }

/-- A `Partial<CameraControlState>` argument: each field optionally present. -/
structure CameraUpdates where
  rotate : Option ℚ := none
  forward : Option ℚ := none
  tilt : Option ℚ := none
  wideAngle : Option Bool := none
  floating : Option Bool := none
deriving DecidableEq

/-- The spread `{ ...prev, ...updates }` in `updateState`
(`src/hooks/useCameraControls.ts`, line 13). -/
def applyUpdates (prev : CameraControlState) (u : CameraUpdates) : CameraControlState :=
  { rotate := u.rotate.getD prev.rotate
    forward := u.forward.getD prev.forward
    tilt := u.tilt.getD prev.tilt
    wideAngle := u.wideAngle.getD prev.wideAngle
    floating := u.floating.getD prev.floating }

/-- `hasChanged` in `updateState` (line 14): some present key of the update
differs from the previous value. -/
def updatesChanged (u : CameraUpdates) (prev : CameraControlState) : Bool :=
  (u.rotate.any fun v => decide (v ≠ prev.rotate)) ||
  (u.forward.any fun v => decide (v ≠ prev.forward)) ||
  (u.tilt.any fun v => decide (v ≠ prev.tilt)) ||
  (u.wideAngle.any fun v => decide (v ≠ prev.wideAngle)) ||
  (u.floating.any fun v => decide (v ≠ prev.floating))

/-- The three `useState` cells of `useCameraControls`: current state and the
undo/redo stacks. -/
structure CameraStore where
  state : CameraControlState
  past : List CameraControlState
  future : List CameraControlState
deriving DecidableEq

/-- The store as initialised by the hook (lines 7–9). -/
def initialStore : CameraStore :=
  { state := DEFAULT_CAMERA_STATE, past := [], future := [] }

/-- `[...p, prev].slice(-50)` (line 17): append, then keep the last 50. -/
def pushPast (p : List CameraControlState) (s : CameraControlState) :
    List CameraControlState :=
  let l := p ++ [s]
  l.drop (l.length - 50)

/-- `updateState` (lines 11–22): merge the partial update; when some field
actually changed, push the previous state onto `past` and clear `future`. -/
def updateState (u : CameraUpdates) (st : CameraStore) : CameraStore :=
  let newState := applyUpdates st.state u
  if updatesChanged u st.state then
    { state := newState, past := pushPast st.past st.state, future := [] }
  else
    { state := newState, past := st.past, future := st.future }

/-- `undo` (lines 24–30): no-op on an empty `past`; otherwise pop its last
element into `state` and push the current state onto the front of `future`. -/
def undo (st : CameraStore) : CameraStore :=
  match st.past.getLast? with
  | none => st
  | some previous =>
      { state := previous, past := st.past.dropLast, future := st.state :: st.future }

/-- `redo` (lines 32–38): no-op on an empty `future`; otherwise shift its head
into `state` and append the current state to `past`. -/
def redo (st : CameraStore) : CameraStore :=
  match st.future with
  | [] => st
  | next :: rest =>
      { state := next, past := st.past ++ [st.state], future := rest }

/-- `reset` (lines 40–44). -/
def resetStore (st : CameraStore) : CameraStore :=
  { state := DEFAULT_CAMERA_STATE, past := st.past ++ [st.state], future := [] }

/-- The drag handler of `Camera3DControl.tsx` (lines 150–153): clamps
`rotate + dx * 0.4` into `ROTATE_LIMITS` and `tilt - dy * 0.008` into
`TILT_LIMITS` before calling `onChange`. -/
def dragUpdates (s : CameraControlState) (dx dy : ℚ) : CameraUpdates :=
  { rotate := some (max ROTATE_LIMITS.min (min ROTATE_LIMITS.max (s.rotate + dx * 0.4)))
    tilt := some (max TILT_LIMITS.min (min TILT_LIMITS.max (s.tilt - dy * 0.008))) }

/-- Decimal rendering of a rational for template-string interpolation.
Integral values render as JS renders integral numbers; the rendering of
non-integral values is display-only (no theorem depends on it). -/
def ratRepr (q : ℚ) : String :=
  if q.den = 1 then toString q.num else toString q

/-- `buildCameraPrompt` from `src/hooks/useCameraControls.ts` (lines 46–82),
with every literal string carried over verbatim. -/
def buildCameraPrompt (s : CameraControlState) : String :=
  if s.wideAngle = true ∧ s.forward > 6 ∧ |s.rotate| < 10 ∧ |s.tilt| < 0.2 then
    "DOLLY_ZOOM_RECONSTRUCTION: Simulate a Hitchcock 'Vertigo' effect. Fast camera movement towards subject while simultaneously widening field-of-view (12mm). Background should appear to peel away while subject remains fixed size. Hyper-realistic parallax."
  else
    let segments : List String := []
    let segments := if s.floating = true then
      segments ++ ["PHYSICS_OVERRIDE: Enable zero-gravity levitation for the subject. Offset height: +60cm from ground. Add ethereal sub-surface scattering and soft atmospheric haze beneath the subject. No contact points."]
      else segments
    let segments := if s.rotate ≠ 0 then
      segments ++ ["AZIMUTH_TRANSFORM: Pivot camera " ++ ratRepr |s.rotate| ++ "° "
        ++ (if s.rotate > 0 then "clockwise" else "counter-clockwise")
        ++ ". Recalculate volumetric lighting and ray-traced reflections based on the new angular position."]
      else segments
    let segments := if s.forward > 8 then
      segments ++ ["MACRO_FOCUS: Distance < 30cm. Shallow depth of field (f/1.4). Focus on micro-textures and intricate surface details. High-frequency detail enhancement."]
      else if s.forward > 3 then
      segments ++ ["DOLLY_IN: Move camera to " ++ ratRepr (10 - s.forward)
        ++ "m distance. Compress spatial depth, increase subject presence."]
      else segments
    let segments := if s.tilt > 0.5 then
      segments ++ ["ZENITH_PERSPECTIVE: Extreme top-down angle. Flatten subject proportions, emphasize floor geometry and layout patterns."]
      else if s.tilt < -0.5 then
      segments ++ ["LOW_ANGLE_HERO: Extreme upward tilt. Exaggerate vertical scale and power dynamics. Lengthen perspective lines."]
      else segments
    let segments := if s.wideAngle = true then
      segments ++ ["OPTICS: 14mm rectilinear ultra-wide lens profile. Intentional corner stretching, enhanced peripheral vision, deep focus across all planes."]
      else
      segments ++ ["OPTICS: 85mm portrait telephoto lens profile. Flat perspective, natural compression, creamy bokeh on background elements."]
    if segments.length > 0 then String.intercalate " " segments
    else "no camera movement"

/-- `PromptConsole.tsx` line 75: the TX pane shows the waiting placeholder
exactly when the prompt equals the sentinel string. -/
def promptConsoleShowsWaiting (prompt : String) : Bool :=
  prompt == "no camera movement"

/-- `PromptConsole.tsx` line 38: the export button renders exactly when the
prompt differs from the sentinel string. -/
def promptConsoleShowsExport (prompt : String) : Bool :=
  prompt != "no camera movement"

/-- `String.intercalate` on a one-element list is that element. -/
theorem intercalate_single (sep a : String) : String.intercalate sep [a] = a := rfl

/-- `settings.quality` values from `src/types.ts`. -/
inductive Quality where
  | flash
  | pro
deriving DecidableEq

/-- `ImageSize` from `src/types.ts`. -/
inductive ImageSize where
  | oneK
  | twoK
  | fourK
deriving DecidableEq

/-- `GenerationSettings` from `src/types.ts`. -/
structure GenerationSettings where
  seed : ℚ
  height : ℚ
  width : ℚ
  steps : ℚ
  quality : Quality
  imageSize : Option ImageSize := none
  creativeContext : Option String := none
deriving DecidableEq

/-- The only request tool the service ever attaches
(`src/services/geminiService.ts`, line 80). -/
inductive RequestTool where
  | googleSearch
deriving DecidableEq

/-- `MAX_RETRIES` (`src/services/geminiService.ts`, line 5). -/
def MAX_RETRIES : Nat := 3

/-- `INITIAL_BACKOFF` in milliseconds (line 6). -/
def INITIAL_BACKOFF : Nat := 2000

/-- Model selection (line 56). -/
def modelName (q : Quality) : String :=
  if q = Quality.pro then "gemini-3-pro-image-preview" else "gemini-2.5-flash-image"

/-- The settings-dependent pieces of the request `config` object
(lines 73–81).  `aspectRatio` and the system instruction are constants
independent of the settings. -/
structure RequestConfig where
  aspectRatio : String
  imageSize : Option ImageSize
  tools : List RequestTool
deriving DecidableEq

/-- Construction of `config` (lines 73–81): aspect ratio is fixed; when the
quality is `pro`, `imageConfig.imageSize` is set to `settings.imageSize || '1K'`
and the `googleSearch` tool is attached; otherwise neither is present. -/
def buildConfig (settings : GenerationSettings) : RequestConfig :=
  { aspectRatio := "1:1"
    imageSize := if settings.quality = Quality.pro
      then some (settings.imageSize.getD ImageSize.oneK) else none
    tools := if settings.quality = Quality.pro then [RequestTool.googleSearch] else [] }

/-- One part of a response candidate: an inline image blob (with its own MIME
type) or a text fragment. -/
inductive ResponsePart where
  | inlineData (mimeType data : String)
  | text (t : String)
deriving DecidableEq

/-- The part-scanning loop (lines 93–101), with the two mutable locals
`imageUrl` and `modelResponse` threaded explicitly: each inline part overwrites
`imageUrl` with a hard-coded `data:image/png;base64,` URL, each text part is
appended to `modelResponse`. -/
def scanParts : List ResponsePart → String → String → String × String
  | [], imageUrl, modelResponse => (imageUrl, modelResponse)
  | ResponsePart.inlineData _ d :: rest, _, modelResponse =>
      scanParts rest ("data:image/png;base64," ++ d) modelResponse
  | ResponsePart.text t :: rest, imageUrl, modelResponse =>
      scanParts rest imageUrl (modelResponse ++ t)

/-- The loop started from `let imageUrl = '' ; let modelResponse = ''`
(lines 89–90). -/
def extractParts (ps : List ResponsePart) : String × String :=
  scanParts ps "" ""

/-- `String.prototype.trim`: strip leading and trailing whitespace, modelled
over the character list. -/
def jsTrim (s : String) : String :=
  String.mk (((s.data.dropWhile Char.isWhitespace).reverse.dropWhile
    Char.isWhitespace).reverse)

/-- Lines 103–112: an empty `imageUrl` is promoted to an
`EMPTY_IMAGE_RESPONSE` error; otherwise the pair
`(imageUrl, modelResponse.trim())` is returned. -/
def serviceOutcome (ps : List ResponsePart) : Except String (String × String) :=
  let r := extractParts ps
  if r.1 = "" then Except.error "EMPTY_IMAGE_RESPONSE"
  else Except.ok (r.1, jsTrim r.2)

/-- The data of the first inline part, following the spec words
"an inline image payload (first one wins)".  Comparison definition for the
refinement claim; the loop above is the code. -/
def firstInlineData : List ResponsePart → Option String
  | [] => none
  | ResponsePart.inlineData _ d :: _ => some d
  | ResponsePart.text _ :: rest => firstInlineData rest

/-- The data of the last inline part of the list. -/
def lastInlineData : List ResponsePart → Option String
  | [] => none
  | ResponsePart.inlineData _ d :: rest => some ((lastInlineData rest).getD d)
  | ResponsePart.text _ :: rest => lastInlineData rest

/-- Concatenation of all text parts in encounter order. -/
def textConcat : List ResponsePart → String
  | [] => ""
  | ResponsePart.inlineData _ _ :: rest => textConcat rest
  | ResponsePart.text t :: rest => t ++ textConcat rest

/-- Does the character list start with the pattern list? -/
def charsLeadWith : List Char → List Char → Bool
  | _, [] => true
  | [], _ :: _ => false
  | c :: cs, p :: ps => c == p && charsLeadWith cs ps

/-- Does the character list contain the pattern list as a contiguous run? -/
def charsContain : List Char → List Char → Bool
  | [], pat => charsLeadWith [] pat
  | c :: rest, pat => charsLeadWith (c :: rest) pat || charsContain rest pat

/-- `String.prototype.includes`: substring containment. -/
def jsIncludes (s pat : String) : Bool :=
  charsContain s.toList pat.toList

/-- The rate-limit classifier (line 116):
`error.message?.includes("429") || error.message?.includes("QUOTA")`. -/
def isRateLimit (m : String) : Bool :=
  jsIncludes m "429" || jsIncludes m "QUOTA"

/-- `Math.ceil(waitTime / 1000)` for the exponential back-off
`waitTime = INITIAL_BACKOFF * Math.pow(2, attempt)` (lines 119–120), as the
whole-second value handed to the `onRetry` callback. -/
def waitSeconds (attempt : Nat) : Nat :=
  (INITIAL_BACKOFF * 2 ^ attempt + 999) / 1000

/-- What one `try` body of the retry loop produces: a value, or a thrown
error message. -/
inductive AttemptResult (A : Type) where
  | ok (v : A)
  | err (msg : String)

/-- The retry loop of `generateImage` (lines 52–128) over an abstract per-attempt
behaviour `f`.  `acc` collects the whole-second waits passed to `onRetry`.
A successful attempt returns; a failure is retried exactly when it is
rate-limit-classified and a further attempt remains, and otherwise becomes the
thrown `lastError`. -/
def genGo {A : Type} (f : Nat → AttemptResult A) (attempt : Nat) (acc : List Nat) :
    Except String (A × List Nat) :=
  match f attempt with
  | AttemptResult.ok v => Except.ok (v, acc)
  | AttemptResult.err m =>
      if _h : isRateLimit m = true ∧ attempt < MAX_RETRIES - 1 then
        genGo f (attempt + 1) (acc ++ [waitSeconds attempt])
      else
        Except.error m
termination_by MAX_RETRIES - attempt
decreasing_by omega

/-- `generateImage`, entered at `attempt = 0` with no retries recorded. -/
def generateImageRetry {A : Type} (f : Nat → AttemptResult A) :
    Except String (A × List Nat) :=
  genGo f 0 []

/-- `GenerationResult` from `src/types.ts` (grounding chunks omitted: no claim
touches them). -/
structure GenerationResult where
  id : String
  imageUrl : Option String := none
  prompt : String
  modelResponse : Option String := none
  timestamp : ℚ
  settings : GenerationSettings
  cameraState : CameraControlState
deriving DecidableEq

/-- `src/App.tsx` line 100: `setHistory(prev => [newResult, ...prev])` —
prepend with no truncation. -/
def recordMain (newResult : GenerationResult) (history : List GenerationResult) :
    List GenerationResult :=
  newResult :: history

/-- `src/unnamed/part_011` line 85:
`setHistory(prev => [newResult, ...prev].slice(0, 20))`. -/
def recordCapped (newResult : GenerationResult) (history : List GenerationResult) :
    List GenerationResult :=
  (newResult :: history).take 20

/-- A distinct concrete `GenerationResult` for each index, for evaluating the
ledger operations on concrete runs. -/
def mkResult (i : Nat) : GenerationResult :=
  { id := toString i
    prompt := "no camera movement"
    timestamp := i
    settings :=
      { seed := 1, height := 1024, width := 1024, steps := 4, quality := Quality.flash }
    cameraState := DEFAULT_CAMERA_STATE }


/-- Both branches of `updateState` install the merged state. -/
theorem updateState_state (u : CameraUpdates) (st : CameraStore) :
    (updateState u st).state = applyUpdates st.state u := by
  unfold updateState
  split <;> rfl

/-- `slice(-50)` after an append still ends with the appended element. -/
theorem pushPast_getLast (p : List CameraControlState) (s : CameraControlState) :
    (pushPast p s).getLast? = some s := by
  unfold pushPast
  have h : (p ++ [s]).length - 50 ≤ p.length := by
    simp only [List.length_append, List.length_singleton]
    omega
  rw [List.drop_append_of_le_length h]
  simp

/-- Closed form of the part-scanning loop: the image slot holds the data URL of
the last inline part (or its initial value), and the text accumulator receives
every text part in order. -/
theorem scanParts_eq (ps : List ResponsePart) : ∀ (imageUrl modelResponse : String),
    scanParts ps imageUrl modelResponse =
      ((match lastInlineData ps with
        | some d => "data:image/png;base64," ++ d
        | none => imageUrl), modelResponse ++ textConcat ps) := by
  induction ps with
  | nil => intro i m; simp [scanParts, lastInlineData, textConcat]
  | cons p rest ih =>
      intro i m
      cases p with
      | inlineData mt d =>
          rw [scanParts, ih, lastInlineData, textConcat]
          cases h : lastInlineData rest <;> simp [h]
      | text t =>
          rw [scanParts, ih, lastInlineData, textConcat, String.append_assoc]

/-- The final `imageUrl` of the extraction loop. -/
theorem extractParts_fst (ps : List ResponsePart) :
    (extractParts ps).1 = (match lastInlineData ps with
      | some d => "data:image/png;base64," ++ d
      | none => "") := by
  unfold extractParts
  rw [scanParts_eq]

/-- The final `modelResponse` of the extraction loop. -/
theorem extractParts_snd (ps : List ResponsePart) :
    (extractParts ps).2 = textConcat ps := by
  unfold extractParts
  rw [scanParts_eq]
  simp

/-- Truncating the right operand of an append before a `take n` of the whole
does not change the result. -/
theorem take_append_take {α : Type} (a b : List α) (n : Nat) :
    (a ++ b.take n).take n = (a ++ b).take n := by
  rw [List.take_append_eq_append_take, List.take_append_eq_append_take,
    List.take_take, Nat.min_eq_left (Nat.sub_le _ _)]

/-- Folding the capped record operation keeps the 20 most recent entries,
most-recent-first. -/
theorem foldl_recordCapped (rs : List GenerationResult) :
    ∀ (h0 : List GenerationResult), h0.length ≤ 20 →
      List.foldl (fun hist r => recordCapped r hist) h0 rs = (rs.reverse ++ h0).take 20 := by
  induction rs with
  | nil =>
      intro h0 hlen
      simpa using (List.take_of_length_le hlen).symm
  | cons r rest ih =>
      intro h0 hlen
      rw [List.foldl_cons]
      have hlen2 : (recordCapped r h0).length ≤ 20 := by
        simp [recordCapped, List.length_take]
      rw [ih _ hlen2]
      unfold recordCapped
      rw [take_append_take]
      simp

/-- C1 (counterexample): compiling the default camera state does not return the
sentinel string "no camera movement" — the always-appended telephoto optics
segment makes the empty-segment fallback unreachable. -/
theorem default_prompt_not_sentinel :
    buildCameraPrompt DEFAULT_CAMERA_STATE ≠ "no camera movement" := by
  have e : buildCameraPrompt DEFAULT_CAMERA_STATE =
      "OPTICS: 85mm portrait telephoto lens profile. Flat perspective, natural compression, creamy bokeh on background elements." := by
    norm_num [buildCameraPrompt, DEFAULT_CAMERA_STATE, intercalate_single]
  rw [e]
  decide

/-- C1 (amended): compiling the default camera state returns the fixed 85mm
telephoto optics segment, not the sentinel; the prompt console branches on
exactly the string "no camera movement" (waiting placeholder shown, export
button hidden, iff the prompt equals it), a branch this compiler output never
takes. -/
theorem default_prompt_optics_and_console_branch :
    buildCameraPrompt DEFAULT_CAMERA_STATE =
      "OPTICS: 85mm portrait telephoto lens profile. Flat perspective, natural compression, creamy bokeh on background elements." ∧
    promptConsoleShowsWaiting "no camera movement" = true ∧
    promptConsoleShowsWaiting (buildCameraPrompt DEFAULT_CAMERA_STATE) = false ∧
    promptConsoleShowsExport (buildCameraPrompt DEFAULT_CAMERA_STATE) = true := by
  have e : buildCameraPrompt DEFAULT_CAMERA_STATE =
      "OPTICS: 85mm portrait telephoto lens profile. Flat perspective, natural compression, creamy bokeh on background elements." := by
    norm_num [buildCameraPrompt, DEFAULT_CAMERA_STATE, intercalate_single]
  refine ⟨e, by decide, ?_, ?_⟩ <;> rw [e] <;> decide

/-- C2 (counterexample): `updateState` applies partial updates without any
clamping: `update({rotate: 999})` leaves rotate at 999, not at the 90 upper
bound, and `update({forward: -5})` leaves forward at -5, not at the 0 lower
bound. -/
theorem updateState_does_not_clamp :
    (updateState { rotate := some 999 } initialStore).state.rotate = 999 ∧
    ((999 : ℚ) ≠ 90) ∧
    (updateState { forward := some (-5) } initialStore).state.forward = -5 ∧
    ((-5 : ℚ) ≠ 0) := by
  refine ⟨?_, by norm_num, ?_, by norm_num⟩ <;>
    rw [updateState_state] <;> rfl

/-- C2 (amended): the clamping happens at the `Camera3DControl` drag call site,
not inside `updateState`: a drag-produced update always lands rotate in
[-90, 90] and tilt in [-1, 1] and leaves forward and the booleans untouched,
while `updateState` itself passes numeric values through unclamped and boolean
fields through unchanged. -/
theorem drag_site_clamping (st : CameraStore) (dx dy : ℚ) :
    (ROTATE_LIMITS.min ≤ (updateState (dragUpdates st.state dx dy) st).state.rotate ∧
      (updateState (dragUpdates st.state dx dy) st).state.rotate ≤ ROTATE_LIMITS.max) ∧
    (TILT_LIMITS.min ≤ (updateState (dragUpdates st.state dx dy) st).state.tilt ∧
      (updateState (dragUpdates st.state dx dy) st).state.tilt ≤ TILT_LIMITS.max) ∧
    (updateState (dragUpdates st.state dx dy) st).state.forward = st.state.forward ∧
    (updateState (dragUpdates st.state dx dy) st).state.wideAngle = st.state.wideAngle ∧
    (updateState (dragUpdates st.state dx dy) st).state.floating = st.state.floating ∧
    (∀ (u : CameraUpdates) (st2 : CameraStore),
      (updateState u st2).state.rotate = u.rotate.getD st2.state.rotate ∧
      (updateState u st2).state.wideAngle = u.wideAngle.getD st2.state.wideAngle ∧
      (updateState u st2).state.floating = u.floating.getD st2.state.floating) := by
  simp only [updateState_state, dragUpdates, applyUpdates, Option.getD_some, Option.getD_none]
  refine ⟨⟨le_max_left _ _, max_le ?_ (min_le_left _ _)⟩,
    ⟨le_max_left _ _, max_le ?_ (min_le_left _ _)⟩, trivial, trivial, trivial, ?_⟩
  · norm_num [ROTATE_LIMITS]
  · norm_num [TILT_LIMITS]
  · intro u st2
    simp [updateState_state, applyUpdates]

/-- C5: for wideAngle=true, forward=8, rotate=0, tilt=0 (any floating flag),
the compiler short-circuits into the single fixed dolly-zoom composite
instruction; no other segment is appended. -/
theorem dolly_zoom_composite_short_circuit (fl : Bool) :
    buildCameraPrompt
        { rotate := 0, forward := 8, tilt := 0, wideAngle := true, floating := fl } =
      "DOLLY_ZOOM_RECONSTRUCTION: Simulate a Hitchcock 'Vertigo' effect. Fast camera movement towards subject while simultaneously widening field-of-view (12mm). Background should appear to peel away while subject remains fixed size. Hyper-realistic parallax." := by
  norm_num [buildCameraPrompt]

/-- C3: a failed attempt is retried exactly when its error message is
rate-limit/quota classified ("429" or "QUOTA" substring) and an attempt
remains; any other failure ends the loop at once with that error, and the
final attempt's failure is thrown to the caller. -/
theorem retry_only_rate_limit {A : Type} (f : Nat → AttemptResult A) (attempt : Nat)
    (acc : List Nat) (m : String) (hf : f attempt = AttemptResult.err m) :
    (isRateLimit m = false → genGo f attempt acc = Except.error m) ∧
    (MAX_RETRIES - 1 ≤ attempt → genGo f attempt acc = Except.error m) ∧
    (isRateLimit m = true → attempt < MAX_RETRIES - 1 →
      genGo f attempt acc = genGo f (attempt + 1) (acc ++ [waitSeconds attempt])) := by
  refine ⟨?_, ?_, ?_⟩
  · intro h1
    rw [genGo.eq_def, hf]
    simp only
    rw [dif_neg]
    simp [h1]
  · intro h1
    rw [genGo.eq_def, hf]
    simp only
    rw [dif_neg]
    intro hc
    omega
  · intro h1 h2
    rw [genGo.eq_def, hf]
    simp only
    rw [dif_pos ⟨h1, h2⟩]

/-- C3 (witness): a non-rate-limit failure on the very first attempt is thrown
immediately. -/
theorem retry_only_rate_limit_witness :
    genGo (fun _ => AttemptResult.err "boom" : Nat → AttemptResult Nat) 0 [] =
      Except.error "boom" :=
  (retry_only_rate_limit (fun _ => AttemptResult.err "boom" : Nat → AttemptResult Nat)
    0 [] "boom" rfl).1 (by decide)

/-- C4: when the first two attempts fail rate-limit-classified and the third
succeeds, the loop resolves successfully having invoked `onRetry` exactly twice,
with the whole-second waits 2 then 4 — the second strictly larger. -/
theorem retry_backoff_two_failures_then_success {A : Type} (f : Nat → AttemptResult A)
    (v : A) (m0 m1 : String)
    (h0 : f 0 = AttemptResult.err m0) (h1 : f 1 = AttemptResult.err m1)
    (h2 : f 2 = AttemptResult.ok v)
    (r0 : isRateLimit m0 = true) (r1 : isRateLimit m1 = true) :
    generateImageRetry f = Except.ok (v, [2, 4]) ∧ (2 : Nat) < 4 := by
  refine ⟨?_, by norm_num⟩
  unfold generateImageRetry
  rw [genGo.eq_def, h0]
  simp only
  rw [dif_pos ⟨r0, by decide⟩, genGo.eq_def, h1]
  simp only
  rw [dif_pos ⟨r1, by decide⟩, genGo.eq_def, h2]
  norm_num [waitSeconds, INITIAL_BACKOFF]

/-- C4 (witness): a concrete service behaviour failing with "429" then "QUOTA"
then succeeding with the value 7. -/
theorem retry_backoff_two_failures_then_success_witness :
    generateImageRetry
        (fun n => if n = 0 then AttemptResult.err "429"
          else if n = 1 then AttemptResult.err "QUOTA" else AttemptResult.ok (7 : Nat)) =
      Except.ok (7, [2, 4]) :=
  (retry_backoff_two_failures_then_success
    (fun n => if n = 0 then AttemptResult.err "429"
      else if n = 1 then AttemptResult.err "QUOTA" else AttemptResult.ok (7 : Nat))
    7 "429" "QUOTA" rfl rfl rfl (by decide) (by decide)).1

/-- C6 (counterexample): with two inline image parts the extraction loop keeps
the data of the second (last) one — the first inline payload does not win. -/
theorem inline_image_last_wins_counterexample :
    (extractParts [ResponsePart.inlineData "image/jpeg" "AAAA",
      ResponsePart.inlineData "image/webp" "BBBB"]).1 = "data:image/png;base64,BBBB" ∧
    firstInlineData [ResponsePart.inlineData "image/jpeg" "AAAA",
      ResponsePart.inlineData "image/webp" "BBBB"] = some "AAAA" ∧
    ("data:image/png;base64,BBBB" : String) ≠ "data:image/png;base64,AAAA" := by
  refine ⟨rfl, rfl, by decide⟩

/-- C6 (amended): the imageUrl is the data URL of the LAST inline image payload
in part order (empty string when no inline part exists), and all text parts are
concatenated in encounter order into modelResponse. -/
theorem extract_parts_last_inline_text_concat (ps : List ResponsePart) :
    (extractParts ps).1 = (match lastInlineData ps with
      | some d => "data:image/png;base64," ++ d
      | none => "") ∧
    (extractParts ps).2 = textConcat ps :=
  ⟨extractParts_fst ps, extractParts_snd ps⟩

/-- C7 (counterexample): the main app's record operation (`src/App.tsx`,
line 100) never truncates: 25 recorded results leave 25 entries, exceeding the
observed caps (at most 20). -/
theorem history_uncapped_in_main_app :
    (List.foldl (fun hist i => recordMain (mkResult i) hist) [] (List.range 25)).length = 25 ∧
    ¬((25 : Nat) ≤ 20) := by
  refine ⟨rfl, by norm_num⟩

/-- C7 (amended): the capped variant of the record operation
(`src/unnamed/part_011`, line 85) prepends most-recent-first and truncates to
20 by dropping oldest entries, so any run of recordings from an empty ledger
retains exactly the (at most) 20 most recent results in most-recent-first
order; the main app's record operation only prepends. -/
theorem history_capped_variant_keeps_recent (rs : List GenerationResult) :
    List.foldl (fun hist r => recordCapped r hist) [] rs = rs.reverse.take 20 ∧
    (List.foldl (fun hist r => recordCapped r hist) [] rs).length ≤ 20 ∧
    (∀ (r : GenerationResult) (hist : List GenerationResult), recordMain r hist = r :: hist) := by
  have h2 : List.foldl (fun hist r => recordCapped r hist) [] rs = rs.reverse.take 20 := by
    simpa using foldl_recordCapped rs [] (by simp)
  refine ⟨h2, ?_, fun r hist => rfl⟩
  rw [h2]
  simp [List.length_take]

/-- C8: the flash tier attaches no tool and no resolution parameter; the
googleSearch grounding tool and the imageSize parameter are present exactly
when the quality is pro, with imageSize defaulting to 1K when unset. -/
theorem flash_config_no_tools_no_image_size (settings : GenerationSettings) :
    (buildConfig { settings with quality := Quality.flash }).tools = [] ∧
    (buildConfig { settings with quality := Quality.flash }).imageSize = none ∧
    ((buildConfig settings).tools = [RequestTool.googleSearch] ↔
      settings.quality = Quality.pro) ∧
    ((buildConfig settings).imageSize.isSome = true ↔ settings.quality = Quality.pro) ∧
    (buildConfig { settings with quality := Quality.pro, imageSize := none }).imageSize =
      some ImageSize.oneK := by
  refine ⟨by simp [buildConfig], by simp [buildConfig], ?_, ?_, by simp [buildConfig]⟩ <;>
    cases hq : settings.quality <;> simp [buildConfig, hq]

/-- C9: when an update changes at least one field, undo restores exactly the
pre-update state and redo right after restores exactly the post-update state;
such an update pushes the pre-update state onto the past stack and clears the
future stack, while a no-change update leaves both stacks untouched. -/
theorem update_undo_redo_roundtrip (st : CameraStore) (u : CameraUpdates)
    (h : updatesChanged u st.state = true) :
    (undo (updateState u st)).state = st.state ∧
    (redo (undo (updateState u st))).state = (updateState u st).state ∧
    (updateState u st).past.getLast? = some st.state ∧
    (updateState u st).future = [] ∧
    (∀ (st2 : CameraStore) (u2 : CameraUpdates), updatesChanged u2 st2.state = false →
      (updateState u2 st2).past = st2.past ∧ (updateState u2 st2).future = st2.future) := by
  have hupd : updateState u st =
      { state := applyUpdates st.state u, past := pushPast st.past st.state,
        future := [] } := by
    unfold updateState
    rw [if_pos h]
  have hundo : undo (updateState u st) =
      { state := st.state, past := (pushPast st.past st.state).dropLast,
        future := [applyUpdates st.state u] } := by
    rw [hupd]
    unfold undo
    simp [pushPast_getLast]
  refine ⟨by rw [hundo], ?_, by rw [hupd]; exact pushPast_getLast _ _, by rw [hupd], ?_⟩
  · rw [hundo, hupd]
    rfl
  · intro st2 u2 h2
    unfold updateState
    rw [if_neg (by simp [h2])]
    exact ⟨rfl, rfl⟩

/-- C9 (witness): updating rotate to 5 from the initial store and undoing
restores the default state. -/
theorem update_undo_redo_roundtrip_witness :
    (undo (updateState { rotate := some 5 } initialStore)).state = initialStore.state :=
  (update_undo_redo_roundtrip initialStore { rotate := some 5 }
    (by norm_num [updatesChanged, initialStore, DEFAULT_CAMERA_STATE])).1

/-- C10: every successful outcome of the extraction step carries an imageUrl
beginning with the hard-coded prefix string "data:image/png;base64," — whatever
the MIME type of the inline payload was. -/
theorem image_url_png_data_scheme (ps : List ResponsePart) (r : String × String)
    (hr : serviceOutcome ps = Except.ok r) :
    ∃ rest, r.1 = "data:image/png;base64," ++ rest := by
  unfold serviceOutcome at hr
  by_cases he : (extractParts ps).1 = ""
  · rw [if_pos he] at hr
    exact absurd hr (by simp)
  · rw [if_neg he] at hr
    injection hr with hpair
    have h1 : r.1 = (extractParts ps).1 := by rw [← hpair]
    cases hli : lastInlineData ps with
    | none => exact absurd (by rw [extractParts_fst, hli]) he
    | some d =>
        rw [h1, extractParts_fst, hli]
        exact ⟨d, rfl⟩

/-- C10 (witness): a response with one JPEG-typed inline part still yields a
PNG-prefixed data URL. -/
theorem image_url_png_data_scheme_witness :
    ∃ rest, (("data:image/png;base64,XYZ", "") : String × String).1 =
      "data:image/png;base64," ++ rest :=
  image_url_png_data_scheme [ResponsePart.inlineData "image/jpeg" "XYZ"] _ rfl
